import Mathlib

/-!
Verification of the feed-validation script (`src/scripts/validate-feed.ts`).

The script walks an already-parsed feed tree (produced by `fast-xml-parser`
with attributes kept) and applies per-field checkers, collecting violations
and computing an exit code.  We embed the parsed tree as `JValue`, each
checker as a total function `JValue → String → CheckOutcome`, and the
error-aggregation (`handleError` / `exitCode`) as explicit state passing.

Conventions of the embedding:
* A JavaScript `assert.*` failure is `CheckOutcome.assertFail msg` with the
  exact message the source builds.
* A non-assertion runtime error (e.g. a `TypeError` from calling a string
  method on a number) is `CheckOutcome.crash msg`.
* `undefined` is represented by `Option.none` at lookup time; lodash
  `_.get(o, path, dflt)` substitutes the default exactly when the lookup
  yields `undefined` (a stored `null` is returned as-is, as in lodash).
-/

/-- Embedding of the parsed feed tree (`fast-xml-parser` output): an object
node maps attribute/child names to values; repeated tags become arrays;
text becomes strings, numbers, or booleans.  Numeric leaves are modelled as
integers (the feeds the script checks carry integral numbers only). -/
inductive JValue where
  | null : JValue
  | str : String → JValue
  | num : Int → JValue
  | bool : Bool → JValue
  | obj : List (String × JValue) → JValue
  | arr : List JValue → JValue
deriving Repr

/-- JavaScript `typeof`. -/
def jsTypeof : JValue → String
  | .null => "object"
  | .str _ => "string"
  | .num _ => "number"
  | .bool _ => "boolean"
  | .obj _ => "object"
  | .arr _ => "object"

/-- JavaScript truthiness. -/
def truthy : JValue → Bool
  | .null => false
  | .str s => !(s.data.isEmpty)
  | .num n => n != 0
  | .bool b => b
  | .obj _ => true
  | .arr _ => true

/-- JavaScript `SameValueZero` / `===` on the values the script stores in its
identity sets.  Distinct parse-tree object/array nodes are never reference
equal, so object and array comparisons are `false` in this model. -/
def sv : JValue → JValue → Bool
  | .null, .null => true
  | .str a, .str b => a == b
  | .num a, .num b => a == b
  | .bool a, .bool b => a == b
  | _, _ => false

/-- First binding of a key in an object node (parse trees never repeat keys). -/
def lookupField : List (String × JValue) → String → Option JValue
  | [], _ => none
  | (k, v) :: rest, key => if k == key then some v else lookupField rest key

/-- Walk a parsed dotted path; `none` models `undefined`. -/
def getPath : JValue → List String → Option JValue
  | v, [] => some v
  | .obj fs, k :: rest =>
      match lookupField fs k with
      | some w => getPath w rest
      | none => none
  | _, _ :: _ => none

/-- Split a lodash path on the dot separator (the script's paths use only
dotted segments, no bracket notation). -/
def splitPathAux : List Char → List Char → List String
  | [], acc => [String.mk acc.reverse]
  | c :: rest, acc =>
      if c == '.' then String.mk acc.reverse :: splitPathAux rest []
      else splitPathAux rest (c :: acc)

def splitPath (p : String) : List String := splitPathAux p.data []

/-- lodash `_.get(v, path, dflt)`. -/
def lget (v : JValue) (path : String) (dflt : JValue) : JValue :=
  (getPath v (splitPath path)).getD dflt

/-- `Object.keys`: own enumerable keys; on a string, its index strings. -/
def jsKeys : JValue → List String
  | .obj fs => fs.map (fun p => p.1)
  | .str s => (List.range s.data.length).map (fun i => toString i)
  | _ => []

/-- lodash `_.without(l, ...rem)`: drop every element equal to a removed one. -/
def jsWithout (l rem : List String) : List String :=
  l.filter (fun x => !(rem.contains x))

/-- Outcome of one checker invocation. -/
inductive CheckOutcome where
  | ok : CheckOutcome
  | assertFail : String → CheckOutcome
  | crash : String → CheckOutcome
deriving Repr

def CheckOutcome.passes : CheckOutcome → Bool
  | .ok => true
  | _ => false

abbrev Checker := JValue → String → CheckOutcome

/-! ### JavaScript numeric primitives used by the checkers -/

def jsWhitespaceChar (c : Char) : Bool :=
  c == ' ' || c == '\t' || c == '\n' || c == '\r'

def digitVal (c : Char) : Nat := c.toNat - '0'.toNat

def decimalValue : List Char → Nat
  | [] => 0
  | c :: rest => digitVal c * 10 ^ rest.length + decimalValue rest

/-- Leading base-10 digit run of `parseInt`: `none` models `NaN`. -/
def leadingDigitsVal (l : List Char) : Option Nat :=
  let ds := l.takeWhile (fun c => c.isDigit)
  if ds.isEmpty then none else some (decimalValue ds)

/-- JavaScript `parseInt(s, 10)`: skip whitespace, optional sign, then the
longest leading digit run; `none` models `NaN`. -/
def jsParseInt (s : String) : Option Int :=
  let t := s.data.dropWhile jsWhitespaceChar
  match t with
  | '-' :: rest => (leadingDigitsVal rest).map (fun n => -(n : Int))
  | '+' :: rest => (leadingDigitsVal rest).map (fun n => (n : Int))
  | _ => (leadingDigitsVal t).map (fun n => (n : Int))

/-- JavaScript `ToNumber` on a string, restricted to the integral literals
that can occur here (`none` models `NaN`; fractional/hex literals, which the
script never compares against, are not modelled and yield `none`). -/
def jsToNumberOpt (s : String) : Option Int :=
  let t := s.data.dropWhile jsWhitespaceChar
  let t := (t.reverse.dropWhile jsWhitespaceChar).reverse
  match t with
  | [] => some 0
  | '-' :: rest => if rest ≠ [] && rest.all (fun c => c.isDigit)
      then some (-(decimalValue rest : Int)) else none
  | '+' :: rest => if rest ≠ [] && rest.all (fun c => c.isDigit)
      then some ((decimalValue rest : Int)) else none
  | l => if l.all (fun c => c.isDigit) then some ((decimalValue l : Int)) else none

/-- JavaScript loose equality `boolean == string` (as exercised by
`assert.notEqual(s.length > 255, msg)`): both sides convert via `ToNumber`. -/
def jsLooseEqBoolStr (b : Bool) (t : String) : Bool :=
  match jsToNumberOpt t with
  | none => false
  | some n => (if b then (1 : Int) else 0) == n

/-! ### String helpers (JavaScript semantics, over the char list) -/

/-- regex `/^ /` -/
def strLeadingSpace (s : String) : Bool :=
  match s.data with
  | c :: _ => c == ' '
  | [] => false

/-- regex `/ $/` -/
def strTrailingSpace (s : String) : Bool :=
  match s.data.getLast? with
  | some c => c == ' '
  | none => false

def strLen (s : String) : Nat := s.data.length

/-- clamp one `String.prototype.slice` index -/
def jsSliceIdx (len : Nat) (i : Int) : Nat :=
  if i < 0 then ((len : Int) + i).toNat else min i.toNat len

/-- JavaScript `s.slice(a, b)` (negative indices count from the end). -/
def jsSlice (s : String) (a b : Int) : String :=
  let len := s.data.length
  let lo := jsSliceIdx len a
  let hi := jsSliceIdx len b
  String.mk ((s.data.take hi).drop lo)

/-- JavaScript `s.slice(a)` with one argument. -/
def jsSliceFrom (s : String) (a : Int) : String :=
  jsSlice s a (s.data.length : Int)

/-- `String.prototype.indexOf` for a pattern, `-1` when absent. -/
def listIndexOfPat (pat : List Char) : List Char → Option Nat
  | [] => if pat.isEmpty then some 0 else none
  | c :: rest =>
      if pat.isPrefixOf (c :: rest) then some 0
      else (listIndexOfPat pat rest).map (· + 1)

def strIndexOf (s pat : String) : Int :=
  match listIndexOfPat pat.data s.data with
  | some i => (i : Int)
  | none => -1

def strStartsWith (s p : String) : Bool := p.data.isPrefixOf s.data

def strEndsWithAny (s : String) (exts : List String) : Bool :=
  exts.any (fun e => e.data.isSuffixOf s.data)

/-! ### Field checkers (one per source function) -/

/-- `checkDefaultString` (validate-feed.ts:46-52).  Note: line 51 calls
`assert.notEqual(s.length > 255, message)` with only two arguments, so the
message string sits in the `expected` slot; the assertion throws exactly
when the boolean is loosely equal to that (non-numeric) string — never. -/
def checkDefaultString (v : JValue) (fieldName : String) : CheckOutcome :=
  match v with
  | .str s =>
      if strLeadingSpace s then .assertFail (fieldName ++ " must not start with leading space.")
      else if strTrailingSpace s then .assertFail (fieldName ++ " must not start with trailing space.")
      else if !(decide (strLen s > 0)) then .assertFail (fieldName ++ " is an empty string.")
      else if jsLooseEqBoolStr (decide (strLen s > 255))
           (fieldName ++ " must not have more than 255 characters.")
        then .assertFail "assert.notEqual failure"
      else .ok
  | _ => .assertFail (fieldName ++ " must be a string.")

/-- `checkNatural` (validate-feed.ts:57-60). -/
def checkNatural (v : JValue) (fieldName : String) : CheckOutcome :=
  match v with
  | .num n => if n > 0 then .ok else .assertFail (fieldName ++ " must be a positive number.")
  | _ => .assertFail (fieldName ++ " must be a number.")

/-- `checkNumberString` (validate-feed.ts:65-69). -/
def checkNumberString (v : JValue) (fieldName : String) : CheckOutcome :=
  match v with
  | .str s =>
      match jsParseInt s with
      | none => .assertFail (fieldName ++ " is not a valid number string.")
      | some n =>
          if n ≥ 0 then .ok
          else .assertFail (fieldName ++ " must be a positive number or zero.")
  | _ => .assertFail (fieldName ++ " must be a string.")

/-- `checkDescriptionString` (validate-feed.ts:74-80).  Line 79 has the same
two-argument `assert.notEqual` slip as `checkDefaultString`, with the 4000
bound and a message still speaking of 255 characters. -/
def checkDescriptionString (v : JValue) (fieldName : String) : CheckOutcome :=
  match v with
  | .str s =>
      if strLeadingSpace s then .assertFail (fieldName ++ " must not start with leading space.")
      else if strTrailingSpace s then .assertFail (fieldName ++ " must not start with trailing space.")
      else if !(decide (strLen s > 0)) then .assertFail (fieldName ++ " is an empty string.")
      else if jsLooseEqBoolStr (decide (strLen s > 4000))
           (fieldName ++ " must not have more than 255 characters.")
        then .assertFail "assert.notEqual failure"
      else .ok
  | _ => .assertFail (fieldName ++ " must be a string.")

/-- `checkCDATAString` (validate-feed.ts:85-91).  Line 89 compares
`s.slice(9, -3)` — the interior — against the literal closing marker, and
line 90 then requires the same interior not to contain that marker. -/
def checkCDATAString (v : JValue) (fieldName : String) : CheckOutcome :=
  match v with
  | .str s =>
      if !(decide (strLen s > 0)) then .assertFail (fieldName ++ " is an empty string.")
      else if !(jsSlice s 0 9 == "<![CDATA[") then
        .assertFail (fieldName ++ " must start with \x27<![CDATA[\x27 if it\x27s CDATA.")
      else if !(jsSlice s 9 (-3) == "]]>") then
        .assertFail (fieldName ++ " must end with \x27]]>\x27 if it\x27s CDATA.")
      else if !(strIndexOf (jsSlice s 9 (-3)) "]]>" == -1) then
        .assertFail (fieldName ++ " must not include \x27]]>\x27 in it\x27s content.")
      else .ok
  | _ => .assertFail (fieldName ++ " must be a string.")

/-- Models `moment(s, FORMATS, true).isValid()` for the two RFC-822 style
formats of `checkDate` (validate-feed.ts:100-102): day name, comma,
two-digit day, month name, four- (or two-)digit year, `HH:mm:ss`, offset.
The `moment` library is an external dependency; this structural matcher is a
faithful model of the token grammar (calendar-overflow rejection of e.g.
day 31 in a 30-day month is not modelled; no theorem below depends on it). -/
def momentStrictValid (s : String) : Bool :=
  let dayNames := ["Mon", "Tue", "Wed", "Thu", "Fri", "Sat", "Sun"]
  let monthNames := ["Jan", "Feb", "Mar", "Apr", "May", "Jun",
                     "Jul", "Aug", "Sep", "Oct", "Nov", "Dec"]
  match s.data with
  | d1 :: d2 :: d3 :: ',' :: ' ' :: rest =>
      if !(dayNames.contains (String.mk [d1, d2, d3])) then false else
      match rest with
      | a :: b :: ' ' :: m1 :: m2 :: m3 :: ' ' :: rest2 =>
          if !(a.isDigit && b.isDigit) then false else
          if !(monthNames.contains (String.mk [m1, m2, m3])) then false else
          let checkTime : List Char → Bool := fun t =>
            match t with
            | h1 :: h2 :: ':' :: n1 :: n2 :: ':' :: s1 :: s2 :: ' ' :: sg :: z1 :: z2 :: z3 :: z4 :: [] =>
                h1.isDigit && h2.isDigit && n1.isDigit && n2.isDigit &&
                s1.isDigit && s2.isDigit && (sg == '+' || sg == '-') &&
                z1.isDigit && z2.isDigit && z3.isDigit && z4.isDigit
            | _ => false
          match rest2 with
          | y1 :: y2 :: y3 :: y4 :: ' ' :: t =>
              if y1.isDigit && y2.isDigit && y3.isDigit && y4.isDigit then checkTime t
              else if y1.isDigit && y2.isDigit && y3 == ' ' then false else false
          | y1 :: y2 :: ' ' :: t => y1.isDigit && y2.isDigit && checkTime t
          | _ => false
      | _ => false
  | _ => false

/-- `checkDate` (validate-feed.ts:97-103). -/
def checkDate (v : JValue) (fieldName : String) : CheckOutcome :=
  match v with
  | .str s =>
      if !(decide (strLen s > 0)) then .assertFail (fieldName ++ " is an empty string.")
      else if momentStrictValid s then .ok
      else .assertFail (fieldName ++ " is not properly formatted date.")
  | _ => .assertFail (fieldName ++ " must be a string.")

/-- regex `/^[a-z]{2}(|-[a-zA-Z]{2})$/` of `checkLanguage`. -/
def langFormatOk (s : String) : Bool :=
  match s.data with
  | [a, b] => a.isLower && b.isLower
  | [a, b, '-', c, d] => a.isLower && b.isLower && c.isAlpha && d.isAlpha
  | _ => false

/-- The `iso6391` column of the `iso-639-2` package (external reference
data, loaded at startup): a representative subset containing every code the
theorems below touch. -/
def iso6391Codes : List String :=
  ["aa", "ab", "af", "ar", "bg", "bn", "cs", "da", "de", "el", "en", "es",
   "et", "fa", "fi", "fr", "he", "hi", "hr", "hu", "id", "it", "ja", "ko",
   "lt", "lv", "nl", "no", "pl", "pt", "ro", "ru", "sk", "sl", "sv", "th",
   "tr", "uk", "vi", "zh"]

/-- `checkLanguage` (validate-feed.ts:108-115). -/
def checkLanguage (v : JValue) (fieldName : String) : CheckOutcome :=
  match v with
  | .str s =>
      if !(decide (strLen s > 0)) then .assertFail (fieldName ++ " is an empty string.")
      else if !(langFormatOk s) then
        .assertFail (fieldName ++ " has not the proper format of a language code.")
      else if !(iso6391Codes.contains (jsSlice s 0 2)) then
        .assertFail (fieldName ++ " does not start with a valid language code.")
      else .ok
  | _ => .assertFail (fieldName ++ " must be a string.")

def joinWith (sep : String) : List String → String
  | [] => ""
  | [x] => x
  | x :: rest => x ++ sep ++ joinWith sep rest

/-- `checkUrlFormat` (validate-feed.ts:120-128); the extension regex
`(e1|e2)$` tests whether the string ends with one of the extensions. -/
def checkUrlFormat (v : JValue) (fieldName : String)
    (expectedExtensions : List String := []) : CheckOutcome :=
  match v with
  | .str s =>
      if !(decide (strLen s > 0)) then .assertFail (fieldName ++ " is an empty string.")
      else if !(jsSlice s 0 8 == "https://") then
        .assertFail (fieldName ++ " must start with \x27https://\x27.")
      else if expectedExtensions.length > 0 && !(strEndsWithAny s expectedExtensions) then
        .assertFail (fieldName ++ " must end with one of the extensions "
          ++ joinWith "," expectedExtensions ++ ".")
      else .ok
  | _ => .assertFail (fieldName ++ " must be a string.")

/-- Truthiness of a process environment variable (`undefined` is absent). -/
def envTruthy : Option String → Bool
  | none => false
  | some s => !(s.data.isEmpty)

/-- JavaScript string coercion of an environment value handed to
`startsWith` (an `undefined` argument is coerced to the text "undefined"). -/
def envStr : Option String → String
  | none => "undefined"
  | some s => s

/-- The CI bypass decision of `checkUrlExists` (validate-feed.ts:137):
`process.env.CI && (process.env.NODE_ENV === 'test' || s.startsWith(process.env.PUBLIC_URL_BASE))`. -/
def ciSkipsUrlCheck (ciVar nodeEnv publicUrlBase : Option String) (s : String) : Bool :=
  envTruthy ciVar &&
    (nodeEnv == some "test" || strStartsWith s (envStr publicUrlBase))

/-- The synchronous front of `checkUrlExists` (validate-feed.ts:133-140):
the shape check, then the CI bypass decision.  The network interaction that
follows on the non-bypass path is I/O and is outside this pure model. -/
def checkUrlExistsPre (ciVar nodeEnv publicUrlBase : Option String)
    (v : JValue) (fieldName : String)
    (expectedExtensions : List String := []) : CheckOutcome × Bool :=
  match checkUrlFormat v fieldName expectedExtensions with
  | .ok =>
      match v with
      | .str s => (.ok, ciSkipsUrlCheck ciVar nodeEnv publicUrlBase s)
      | _ => (.ok, false)
  | o => (o, false)

/-- `Modelled from the spec:` the `itunes-categories.json` data file is not
among the provided sources; the spec describes it as a fixed
category→subcategory reference table.  A representative fragment. -/
def ITUNES_CATEGORIES : List (String × List String) :=
  [("Arts", ["Books", "Design", "Fashion & Beauty", "Food", "Performing Arts", "Visual Arts"]),
   ("Comedy", ["Comedy Interviews", "Improv", "Stand-Up"]),
   ("Education", ["Courses", "How To", "Language Learning", "Self-Improvement"]),
   ("Technology", []),
   ("True Crime", [])]

/-- `checkItunesCategory` (validate-feed.ts:157-165). -/
def checkItunesCategory (cat subcat : JValue) : CheckOutcome :=
  match cat with
  | .str c =>
      match lookupField (ITUNES_CATEGORIES.map (fun p => (p.1, JValue.arr (p.2.map JValue.str)))) c with
      | none => .assertFail "Itunes category is not a valid itunes category."
      | some _ =>
          if truthy subcat then
            match subcat with
            | .str sc =>
                let subs := ((ITUNES_CATEGORIES.filter (fun p => p.1 == c)).map (fun p => p.2)).flatten
                if subs.contains sc then .ok
                else .assertFail "Itunes subcategory is not valid."
            | _ => .assertFail "Itunes subcategory must be a string."
          else .ok
  | _ => .assertFail "Itunes category must be a string."

/-- `checkBool` (validate-feed.ts:167-169). -/
def checkBool (v : JValue) (fieldName : String) : CheckOutcome :=
  match v with
  | .bool _ => .ok
  | _ => .assertFail (fieldName ++ " must be a boolean.")

/-- The `email-validator` package's `validate` (external dependency): falsy
input returns `false`; otherwise it immediately calls `email.split('@')`,
which on a non-string raises a `TypeError`.  On strings it checks the
split/length limits and then a final syntax regex (`emailSyntaxOk` stands
for that regex; no theorem below depends on its exact decision). -/
def emailSyntaxOk (account address : String) : Bool :=
  !(account.data.isEmpty) && !(address.data.isEmpty) &&
    address.data.contains '.' && !(account.data.contains ' ') && !(address.data.contains ' ')

def splitOnChar (sep : Char) : List Char → List (List Char)
  | [] => [[]]
  | c :: rest =>
      if c == sep then [] :: splitOnChar sep rest
      else match splitOnChar sep rest with
        | [] => [[c]]
        | p :: ps => (c :: p) :: ps

def emailValidatorValidate (v : JValue) : Except String Bool :=
  if !(truthy v) then .ok false
  else match v with
    | .str s =>
        let parts := splitOnChar '@' s.data
        if parts.length ≠ 2 then .ok false
        else
          let account := String.mk (parts.headD [])
          let address := String.mk ((parts.drop 1).headD [])
          if account.data.length > 64 then .ok false
          else if address.data.length > 255 then .ok false
          else if (splitOnChar '.' address.data).any (fun p => p.length > 63) then .ok false
          else .ok (emailSyntaxOk account address)
    | _ => .error "email.split is not a function"

/-- `checkEmail` (validate-feed.ts:171-173): no type guard of its own; the
library call can itself raise a `TypeError` on non-string truthy input. -/
def checkEmail (v : JValue) (fieldName : String) : CheckOutcome :=
  match emailValidatorValidate v with
  | .error m => .crash m
  | .ok true => .ok
  | .ok false => .assertFail (fieldName ++ " is not a valid email address.")

/-- `['a','b'].indexOf(v)` against a JValue, using `===`. -/
def strListIndexOf (l : List String) (v : JValue) : Int :=
  match v with
  | .str s =>
      match l.indexOf? s with
      | some i => (i : Int)
      | none => -1
  | _ => -1

/-- `checkItunesType` (validate-feed.ts:175-177). -/
def checkItunesType (v : JValue) (fieldName : String) : CheckOutcome :=
  if strListIndexOf ["serial", "episodic"] v != -1 then .ok
  else .assertFail (fieldName ++ " must be \x27serial\x27 or \x27episodic\x27")

/-- `checkEpisodeType` (validate-feed.ts:179-181). -/
def checkEpisodeType (v : JValue) (fieldName : String) : CheckOutcome :=
  if strListIndexOf ["full", "trailer", "bonus"] v != -1 then .ok
  else .assertFail (fieldName ++ " must be \x27full\x27, \x27trailer\x27 or \x27bonus\x27.")

/-- `checkAudioType` (validate-feed.ts:183-185). -/
def checkAudioType (v : JValue) (fieldName : String) : CheckOutcome :=
  if strListIndexOf ["audio/x-m4a", "audio/mpeg"] v != -1 then .ok
  else .assertFail (fieldName ++ " valid audio type")

/-! ### Error aggregation (`handleError`, validate-feed.ts:191-209)

The script prints each violation and tracks a mutable `exitCode`.  A
violation is a message plus the `isStrict` flag of the `handleError` call
that records it; we keep the messages structured (one constructor per
template literal in the source) together with a renderer producing the
exact printed text. -/

/-- One violation message, by originating template literal. -/
inductive Msg where
  | text : String → Msg
  | dupGuid : Option JValue → JValue → Msg
  | dupEpisode : Option JValue → JValue → Msg
  | extraTags : Option JValue → List String → Msg
  | channelExtraTags : List String → Msg
deriving Repr

/-- String coercion inside a template literal.  Arrays are rendered
shallowly (join with commas of the scalar display); the script only
interpolates scalar title/guid/episode leaves. -/
def jsDisplayV : JValue → String
  | .null => "null"
  | .str s => s
  | .num n => toString n
  | .bool b => if b then "true" else "false"
  | .obj _ => "[object Object]"
  | .arr l => joinWith ","
      (l.attach.map (fun x =>
        match x.1 with
        | .str s => s
        | .num n => toString n
        | .bool b => if b then "true" else "false"
        | .null => ""
        | _ => "[object Object]"))

def jsDisplayOpt : Option JValue → String
  | none => "undefined"
  | some v => jsDisplayV v

def renderMsg : Msg → String
  | .text s => s
  | .dupGuid t g => jsDisplayOpt t ++ ": Duplicate guid " ++ jsDisplayV g
  | .dupEpisode t e => jsDisplayOpt t ++ ": Duplicate episode " ++ jsDisplayV e
  | .extraTags t tags => jsDisplayOpt t ++ ": Has additional tags: " ++ joinWith "," tags
  | .channelExtraTags tags => "Channel has additional tags: " ++ joinWith "," tags

/-- A recorded console line: error (fatal path) or warning (strict-only,
strict mode off). -/
inductive Ev where
  | warn : Msg → Ev
  | err : Msg → Ev
deriving Repr

structure RunState where
  events : List Ev
  exitCode : Nat
deriving Repr

def initState : RunState := ⟨[], 0⟩

/-- `handleError` (validate-feed.ts:193-201); `strictArg` is `args['strict']`. -/
def handleErrorSt (strictArg : Bool) (st : RunState) (m : Msg) (isStrict : Bool) : RunState :=
  if isStrict && !strictArg then
    { st with events := st.events ++ [Ev.warn m] }
  else
    { events := st.events ++ [Ev.err m], exitCode := 1 }

/-- Replay a list of `(message, isStrict)` violations through `handleError`
in order; every call site of `handleError` feeds this. -/
def applyEvents (strictArg : Bool) (st : RunState) (evs : List (Msg × Bool)) : RunState :=
  evs.foldl (fun s e => handleErrorSt strictArg s e.1 e.2) st

/-- The `try { validate(...) } catch (err) { handleError(err) }` wrapper used
by `check` and by the rule-table loops: assertion failures and runtime
errors alike are caught and recorded as always-fatal violations. -/
def runCheck (strictArg : Bool) (st : RunState) (c : Checker) (v : JValue)
    (fieldName : String) : RunState :=
  match c v fieldName with
  | .ok => st
  | .assertFail m => handleErrorSt strictArg st (.text m) false
  | .crash m => handleErrorSt strictArg st (.text m) false

/-- Violations produced by one wrapped checker invocation. -/
def outcomeEvents : CheckOutcome → List (Msg × Bool)
  | .ok => []
  | .assertFail m => [(.text m, false)]
  | .crash m => [(.text m, false)]

/-! ### Channel rule-table keys and extra-tag computation
(`checkChannel`, validate-feed.ts:232-305; only the pure tag bookkeeping is
modelled — the field loops of `checkChannel` await network reachability
checks and are outside the pure model). -/

def requiredChannelKeys : List String :=
  ["title", "description", "itunes:image.@_href", "language",
   "itunes:explicit", "atom:link.@_href"]

def optionalChannelKeys : List String :=
  ["content:encoded", "itunes:summary", "itunes:author", "link",
   "itunes:owner.itunes:name", "itunes:owner.itunes:email", "lastBuildDate",
   "itunes:title", "itunes:type", "copyright", "itunes:new-feed-url",
   "itunes:block", "itunes:complete"]

def structuralChannelTags : List String :=
  ["itunes:image", "image", "itunes:category", "itunes:owner", "atom:link", "item"]

/-- `additionalChannelTags` (validate-feed.ts:286-300). -/
def additionalChannelTags (channel : JValue) : List String :=
  jsWithout (jsKeys channel)
    (structuralChannelTags ++ requiredChannelKeys ++ optionalChannelKeys)

/-! ### `checkEpisodes` (validate-feed.ts:308-398) -/

/-- `REQUIRED_EPISODE_ATTRS`: the conditional spread appends the episode
index exactly when the channel's itunes type is `serial`. -/
def requiredEpisodeAttrs (serial : Bool) : List (String × Checker) :=
  [("title", checkDefaultString),
   ("enclosure.@_url", fun v f => checkUrlFormat v f ["mp3", "m4a"]),
   ("enclosure.@_length", checkNumberString),
   ("enclosure.@_type", checkAudioType)]
  ++ (if serial then [("itunes:episode", checkNatural)] else [])

/-- `OPTIONAL_EPISODE_ATTRS`.  The source builds this table of validators
but its item loop never invokes them — only `Object.keys` of this table is
consumed (for the extra-tag computation below).  The `itunes:image.@_href`
entry is the synchronous front of `checkUrlExists` (the network part is
never reached on any path the script takes through this table). -/
def optionalEpisodeAttrs (serial : Bool) : List (String × Checker) :=
  [("itunes:title", checkDefaultString),
   ("itunes:author", checkDefaultString),
   ("itunes:summary", checkDefaultString),
   ("itunes:subtitle", checkDefaultString),
   ("itunes:episodeType", checkEpisodeType),
   ("content:encoded", checkCDATAString),
   ("category", checkDefaultString),
   ("guid.#text", checkDefaultString),
   ("guid.@_isPermaLink", checkBool),
   ("pubDate", checkDate),
   ("description", checkDescriptionString),
   ("itunes:duration", checkNatural),
   ("link", fun v f => checkUrlFormat v f),
   ("itunes:image.@_href", fun v f =>
      (checkUrlExistsPre none none none v f ["jpg", "jpeg", "png"]).1),
   ("itunes:explicit", checkBool)]
  ++ (if !serial then [("itunes:episode", checkNatural)] else [])
  ++ [("itunes:order", checkNatural),
      ("itunes:season", checkNatural)]

/-- `_.get(item, 'guid.#text', '')` (validate-feed.ts:357). -/
def guidOf (item : JValue) : JValue := lget item "guid.#text" (.str "")

/-- `_.get(item, 'itunes:episode', '')` (validate-feed.ts:358). -/
def epOf (item : JValue) : JValue := lget item "itunes:episode" (.str "")

/-- `item['title']` as interpolated into violation messages. -/
def titleOf (item : JValue) : Option JValue := getPath item ["title"]

/-- `Set.prototype.has` over the modelled identity set. -/
def seenHas (seen : List JValue) (v : JValue) : Bool :=
  seen.any (fun w => sv w v)

/-- `Set.prototype.add`. -/
def addSet (seen : List JValue) (v : JValue) : List JValue :=
  if seenHas seen v then seen else v :: seen

/-- Guid-set update performed while processing one item. -/
def guidUpd (guids : List JValue) (item : JValue) : List JValue :=
  if truthy (guidOf item) then addSet guids (guidOf item) else guids

/-- Episode-set update performed while processing one item. -/
def epUpd (eps : List JValue) (item : JValue) : List JValue :=
  if truthy (epOf item) then addSet eps (epOf item) else eps

/-- Duplicate-identity violations of one item (validate-feed.ts:356-372):
a falsy guid/episode value is skipped entirely; a truthy value already in
the identity set yields one always-fatal violation naming the item title
and the value. -/
def itemDupEvents (guids eps : List JValue) (item : JValue) : List (Msg × Bool) :=
  (if truthy (guidOf item) then
     (if seenHas guids (guidOf item) then
        [(Msg.dupGuid (titleOf item) (guidOf item), false)] else [])
   else [])
  ++ (if truthy (epOf item) then
       (if seenHas eps (epOf item) then
          [(Msg.dupEpisode (titleOf item) (epOf item), false)] else [])
     else [])

/-- Required-attribute checker loop over one item (validate-feed.ts:374-380):
each failure is caught and recorded as an always-fatal violation whose field
label is `title: field`. -/
def requiredEvents (serial : Bool) (item : JValue) : List (Msg × Bool) :=
  ((requiredEpisodeAttrs serial).map (fun p =>
      outcomeEvents (p.2 (lget item p.1 .null)
        (jsDisplayOpt (titleOf item) ++ ": " ++ p.1)))).flatten

/-- `additionalTags` for one item (validate-feed.ts:382-392): the item's
child keys minus the structural tags and the *exact* required/optional
rule-table field names (dotted paths included verbatim). -/
def episodeExtraTags (serial : Bool) (item : JValue) : List String :=
  jsWithout (jsKeys item)
    (["enclosure", "guid"]
      ++ (requiredEpisodeAttrs serial).map (fun p => p.1)
      ++ (optionalEpisodeAttrs serial).map (fun p => p.1))

/-- Strict-only extra-tag violation of one item (validate-feed.ts:394-396). -/
def extraTagEvents (serial : Bool) (item : JValue) : List (Msg × Bool) :=
  let tags := episodeExtraTags serial item
  if tags.length > 0 then [(Msg.extraTags (titleOf item) tags, true)] else []

/-- All violations one item contributes, in source order. -/
def itemAllEvents (serial : Bool) (guids eps : List JValue) (item : JValue) :
    List (Msg × Bool) :=
  itemDupEvents guids eps item ++ requiredEvents serial item
    ++ extraTagEvents serial item

/-- The item loop, returning each item's violation list. -/
def runItemsEvents (serial : Bool) (guids eps : List JValue) :
    List JValue → List (List (Msg × Bool))
  | [] => []
  | it :: rest =>
      itemAllEvents serial guids eps it
        :: runItemsEvents serial (guidUpd guids it) (epUpd eps it) rest

/-- The wrap step (validate-feed.ts:311-313): a truthy non-array `item`
value becomes a one-element collection. -/
def itemsOf (v : JValue) : List JValue :=
  match v with
  | .arr l => l
  | .str s => s.data.map (fun c => JValue.str (String.mk [c]))
  | w => if truthy w then [w] else []

/-- `items.length` after the wrap step. -/
def itemsLen (v : JValue) : Nat :=
  match v with
  | .arr l => l.length
  | .str s => s.data.length
  | w => if truthy w then 1 else 0

/-- `itunesType === 'serial'` (validate-feed.ts:321, 328). -/
def serialOf (channel : JValue) : Bool :=
  sv (lget channel "itunes:type" (.str "")) (.str "serial")

/-- Every violation `checkEpisodes` records for a channel, in order. -/
def checkEpisodesEvents (channel : JValue) : List (Msg × Bool) :=
  let items0 := lget channel "item" (.arr [])
  outcomeEvents (checkNatural (.num (itemsLen items0)) "Episode count")
    ++ (runItemsEvents (serialOf channel) [] [] (itemsOf items0)).flatten

/-- `checkEpisodes` as a state transformer from the clean run state. -/
def checkEpisodesRun (strictArg : Bool) (channel : JValue) : RunState :=
  applyEvents strictArg initState (checkEpisodesEvents channel)

/-! ### Filters used to state the duplicate-identity claims -/

def isDupGuidMsg : Msg → Bool
  | .dupGuid _ _ => true
  | _ => false

def isDupEpisodeMsg : Msg → Bool
  | .dupEpisode _ _ => true
  | _ => false

def dupGuidMsgs (evs : List (Msg × Bool)) : List (Msg × Bool) :=
  evs.filter (fun e => isDupGuidMsg e.1)

def dupEpisodeMsgs (evs : List (Msg × Bool)) : List (Msg × Bool) :=
  evs.filter (fun e => isDupEpisodeMsg e.1)

/-- Identity-set contents after the loop has consumed a prefix of items. -/
def guidsAfter (guids : List JValue) : List JValue → List JValue
  | [] => guids
  | it :: rest => guidsAfter (guidUpd guids it) rest

def epsAfter (eps : List JValue) : List JValue → List JValue
  | [] => eps
  | it :: rest => epsAfter (epUpd eps it) rest

/-! ### Concrete feeds used by the theorems -/

set_option maxRecDepth 10000

/-- An item whose required fields are all valid and whose only optional
field, `itunes:episodeType`, carries a value its checker rejects. -/
def epTypeItem : JValue := .obj
  [("title", .str "Ep1"),
   ("enclosure", .obj [("@_url", .str "https://example.com/a.mp3"),
                       ("@_length", .str "123"),
                       ("@_type", .str "audio/mpeg")]),
   ("itunes:episodeType", .str "invalid")]

def epTypeChan : JValue := .obj [("item", epTypeItem)]

/-- An item whose children are exactly the required tags plus
`itunes:image` (addressed in the optional table as `itunes:image.@_href`). -/
def imageItem : JValue := .obj
  [("title", .str "Ep1"),
   ("enclosure", .obj [("@_url", .str "https://example.com/a.mp3"),
                       ("@_length", .str "123"),
                       ("@_type", .str "audio/mpeg")]),
   ("itunes:image", .obj [("@_href", .str "https://example.com/i.jpg")])]

def imageChan : JValue := .obj [("item", imageItem)]

/-- A channel whose children are structural tags plus top-level required
field names, including the structurally-listed `itunes:image`. -/
def fullChan : JValue := .obj
  [("title", .str "t"), ("description", .str "d"),
   ("itunes:image", .obj [("@_href", .str "https://example.com/i.jpg")]),
   ("image", .obj []), ("itunes:category", .obj []), ("itunes:owner", .obj []),
   ("atom:link", .obj []), ("item", .arr []),
   ("language", .str "en"), ("itunes:explicit", .bool true)]

/-- An item with no guid child at all (guid text defaults to the empty
string) and no episode index. -/
def noGuidItem : JValue := .obj [("title", .str "T")]

def longTitle : String := String.mk (List.replicate 256 'a')

def longDescription : String := String.mk (List.replicate 4001 'a')

/-! ### Helper lemmas -/

theorem sv_trans {a b c : JValue} (h1 : sv a b = true) (h2 : sv b c = true) :
    sv a c = true := by
  cases a <;> cases b <;> cases c <;> simp_all [sv]

theorem seenHas_cons (w v : JValue) (g : List JValue) :
    seenHas (w :: g) v = (sv w v || seenHas g v) := by
  simp [seenHas]

theorem seenHas_addSet (g : List JValue) (w v : JValue) :
    seenHas (addSet g w) v = (sv w v || seenHas g v) := by
  unfold addSet
  by_cases hw : seenHas g w
  · simp only [hw, if_true]
    cases hv : sv w v
    · simp
    · have : seenHas g v = true := by
        rcases List.any_eq_true.mp hw with ⟨u, hu, hsv⟩
        exact List.any_eq_true.mpr ⟨u, hu, sv_trans hsv hv⟩
      simp [this]
  · simp [hw, seenHas_cons]

theorem guidsAfter_cons (g : List JValue) (it : JValue) (l : List JValue) :
    guidsAfter g (it :: l) = guidsAfter (guidUpd g it) l := rfl

theorem epsAfter_cons (e : List JValue) (it : JValue) (l : List JValue) :
    epsAfter e (it :: l) = epsAfter (epUpd e it) l := rfl

theorem guidsAfter_snoc (g : List JValue) (l : List JValue) (it : JValue) :
    guidsAfter g (l ++ [it]) = guidUpd (guidsAfter g l) it := by
  induction l generalizing g with
  | nil => rfl
  | cons p t ih => simp [guidsAfter_cons, ih]

theorem epsAfter_snoc (e : List JValue) (l : List JValue) (it : JValue) :
    epsAfter e (l ++ [it]) = epUpd (epsAfter e l) it := by
  induction l generalizing e with
  | nil => rfl
  | cons p t ih => simp [epsAfter_cons, ih]

theorem seenHas_guidUpd (g : List JValue) (it : JValue) (v : JValue) :
    seenHas (guidUpd g it) v
      = (seenHas g v || (truthy (guidOf it) && sv (guidOf it) v)) := by
  unfold guidUpd
  by_cases ht : truthy (guidOf it)
  · simp [ht, seenHas_addSet, Bool.or_comm]
  · simp [ht]

theorem seenHas_epUpd (e : List JValue) (it : JValue) (v : JValue) :
    seenHas (epUpd e it) v
      = (seenHas e v || (truthy (epOf it) && sv (epOf it) v)) := by
  unfold epUpd
  by_cases ht : truthy (epOf it)
  · simp [ht, seenHas_addSet, Bool.or_comm]
  · simp [ht]

theorem seenHas_guidsAfter (l : List JValue) (g : List JValue) (v : JValue) :
    seenHas (guidsAfter g l) v
      = (seenHas g v || l.any (fun p => truthy (guidOf p) && sv (guidOf p) v)) := by
  induction l generalizing g with
  | nil => simp [guidsAfter]
  | cons p t ih =>
      rw [guidsAfter_cons, ih, seenHas_guidUpd]
      simp [Bool.or_assoc]

theorem seenHas_epsAfter (l : List JValue) (e : List JValue) (v : JValue) :
    seenHas (epsAfter e l) v
      = (seenHas e v || l.any (fun p => truthy (epOf p) && sv (epOf p) v)) := by
  induction l generalizing e with
  | nil => simp [epsAfter]
  | cons p t ih =>
      rw [epsAfter_cons, ih, seenHas_epUpd]
      simp [Bool.or_assoc]

theorem runItemsEvents_append (serial : Bool) (g e : List JValue)
    (pre rest : List JValue) :
    runItemsEvents serial g e (pre ++ rest)
      = runItemsEvents serial g e pre
        ++ runItemsEvents serial (guidsAfter g pre) (epsAfter e pre) rest := by
  induction pre generalizing g e with
  | nil => rfl
  | cons p t ih => simp [runItemsEvents, ih, guidsAfter_cons, epsAfter_cons]

theorem dupGuidMsgs_append (a b : List (Msg × Bool)) :
    dupGuidMsgs (a ++ b) = dupGuidMsgs a ++ dupGuidMsgs b :=
  List.filter_append a b

theorem dupEpisodeMsgs_append (a b : List (Msg × Bool)) :
    dupEpisodeMsgs (a ++ b) = dupEpisodeMsgs a ++ dupEpisodeMsgs b :=
  List.filter_append a b

theorem dupGuidMsgs_outcomeEvents (o : CheckOutcome) :
    dupGuidMsgs (outcomeEvents o) = [] := by
  cases o <;> rfl

theorem dupEpisodeMsgs_outcomeEvents (o : CheckOutcome) :
    dupEpisodeMsgs (outcomeEvents o) = [] := by
  cases o <;> rfl

theorem dupGuidMsgs_flatten_outcomes {α : Type} (l : List α) (g : α → CheckOutcome) :
    dupGuidMsgs ((l.map (fun p => outcomeEvents (g p))).flatten) = [] := by
  induction l with
  | nil => rfl
  | cons a t ih =>
      simp only [List.map_cons, List.flatten_cons, dupGuidMsgs_append,
        dupGuidMsgs_outcomeEvents, List.nil_append, ih]

theorem dupEpisodeMsgs_flatten_outcomes {α : Type} (l : List α) (g : α → CheckOutcome) :
    dupEpisodeMsgs ((l.map (fun p => outcomeEvents (g p))).flatten) = [] := by
  induction l with
  | nil => rfl
  | cons a t ih =>
      simp only [List.map_cons, List.flatten_cons, dupEpisodeMsgs_append,
        dupEpisodeMsgs_outcomeEvents, List.nil_append, ih]

theorem dupGuidMsgs_requiredEvents (serial : Bool) (it : JValue) :
    dupGuidMsgs (requiredEvents serial it) = [] :=
  dupGuidMsgs_flatten_outcomes (requiredEpisodeAttrs serial)
    (fun p => p.2 (lget it p.1 .null) (jsDisplayOpt (titleOf it) ++ ": " ++ p.1))

theorem dupEpisodeMsgs_requiredEvents (serial : Bool) (it : JValue) :
    dupEpisodeMsgs (requiredEvents serial it) = [] :=
  dupEpisodeMsgs_flatten_outcomes (requiredEpisodeAttrs serial)
    (fun p => p.2 (lget it p.1 .null) (jsDisplayOpt (titleOf it) ++ ": " ++ p.1))

theorem dupGuidMsgs_extraTagEvents (serial : Bool) (it : JValue) :
    dupGuidMsgs (extraTagEvents serial it) = [] := by
  unfold extraTagEvents
  by_cases h : (episodeExtraTags serial it).length > 0 <;>
    simp [h, dupGuidMsgs, isDupGuidMsg]

theorem dupEpisodeMsgs_extraTagEvents (serial : Bool) (it : JValue) :
    dupEpisodeMsgs (extraTagEvents serial it) = [] := by
  unfold extraTagEvents
  by_cases h : (episodeExtraTags serial it).length > 0 <;>
    simp [h, dupEpisodeMsgs, isDupEpisodeMsg]

theorem dupGuidMsgs_itemDupEvents (guids eps : List JValue) (it : JValue) :
    dupGuidMsgs (itemDupEvents guids eps it)
      = (if truthy (guidOf it) && seenHas guids (guidOf it)
         then [(Msg.dupGuid (titleOf it) (guidOf it), false)] else []) := by
  unfold itemDupEvents
  by_cases hg : truthy (guidOf it) <;> by_cases hs : seenHas guids (guidOf it) <;>
    by_cases he : truthy (epOf it) <;> by_cases hse : seenHas eps (epOf it) <;>
      simp [hg, hs, he, hse, dupGuidMsgs, isDupGuidMsg]

theorem dupEpisodeMsgs_itemDupEvents (guids eps : List JValue) (it : JValue) :
    dupEpisodeMsgs (itemDupEvents guids eps it)
      = (if truthy (epOf it) && seenHas eps (epOf it)
         then [(Msg.dupEpisode (titleOf it) (epOf it), false)] else []) := by
  unfold itemDupEvents
  by_cases hg : truthy (guidOf it) <;> by_cases hs : seenHas guids (guidOf it) <;>
    by_cases he : truthy (epOf it) <;> by_cases hse : seenHas eps (epOf it) <;>
      simp [hg, hs, he, hse, dupEpisodeMsgs, isDupEpisodeMsg]

theorem dupGuidMsgs_itemAllEvents (serial : Bool) (guids eps : List JValue) (it : JValue) :
    dupGuidMsgs (itemAllEvents serial guids eps it)
      = (if truthy (guidOf it) && seenHas guids (guidOf it)
         then [(Msg.dupGuid (titleOf it) (guidOf it), false)] else []) := by
  unfold itemAllEvents
  rw [dupGuidMsgs_append, dupGuidMsgs_append, dupGuidMsgs_itemDupEvents,
    dupGuidMsgs_requiredEvents, dupGuidMsgs_extraTagEvents]
  simp

theorem dupEpisodeMsgs_itemAllEvents (serial : Bool) (guids eps : List JValue) (it : JValue) :
    dupEpisodeMsgs (itemAllEvents serial guids eps it)
      = (if truthy (epOf it) && seenHas eps (epOf it)
         then [(Msg.dupEpisode (titleOf it) (epOf it), false)] else []) := by
  unfold itemAllEvents
  rw [dupEpisodeMsgs_append, dupEpisodeMsgs_append, dupEpisodeMsgs_itemDupEvents,
    dupEpisodeMsgs_requiredEvents, dupEpisodeMsgs_extraTagEvents]
  simp

theorem applyEvents_cons (b : Bool) (st : RunState) (e : Msg × Bool)
    (t : List (Msg × Bool)) :
    applyEvents b st (e :: t) = applyEvents b (handleErrorSt b st e.1 e.2) t := rfl

theorem applyEvents_exitCode_one (b : Bool) (st : RunState)
    (evs : List (Msg × Bool)) (h : st.exitCode = 1) :
    (applyEvents b st evs).exitCode = 1 := by
  induction evs generalizing st with
  | nil => exact h
  | cons e t ih =>
      rw [applyEvents_cons]
      apply ih
      unfold handleErrorSt
      split <;> simp [h]

/-! ### Claim theorems -/

/-- C1: the claim says a present-but-invalid optional item field produces
exactly one always-fatal violation.  In the code the optional episode rule
table's validators are never invoked (the item loop only runs the required
table), so an item whose `itunes:episodeType` is present and invalid by its
own checker contributes no violation at all and the run exits 0. -/
theorem c1_optional_item_checkers_never_run :
    lget epTypeItem "itunes:episodeType" JValue.null = JValue.str "invalid"
    ∧ checkEpisodeType (JValue.str "invalid") "itunes:episodeType"
        = CheckOutcome.assertFail
            "itunes:episodeType must be \x27full\x27, \x27trailer\x27 or \x27bonus\x27."
    ∧ checkEpisodesEvents epTypeChan = []
    ∧ (checkEpisodesRun false epTypeChan).exitCode = 0
    ∧ (checkEpisodesRun true epTypeChan).exitCode = 0 :=
  ⟨rfl, rfl, rfl, rfl, rfl⟩

/-- C2: the claim says the CDATA checker accepts exactly the well-enveloped
strings, in particular `<![CDATA[hello]]>`.  In the code line 89 compares
the interior `s.slice(9, -3)` (not the tail) against the closing marker
while line 90 forbids the marker in the same interior, so the checker
rejects every input; on the claim's accepted example it fails with the
"must end with" message. -/
theorem c2_cdata_checker_rejects_all :
    (∀ (v : JValue) (f : String), (checkCDATAString v f).passes = false)
    ∧ checkCDATAString (JValue.str "<![CDATA[hello]]>") "content:encoded"
        = CheckOutcome.assertFail
            "content:encoded must end with \x27]]>\x27 if it\x27s CDATA." := by
  constructor
  · intro v f
    cases v <;> try rfl
    rename_i s
    by_cases hmid : (jsSlice s 9 (-3) == "]]>") = true
    · have he : jsSlice s 9 (-3) = "]]>" := eq_of_beq hmid
      have hidx : strIndexOf (jsSlice s 9 (-3)) "]]>" = 0 := by rw [he]; rfl
      unfold checkCDATAString
      by_cases h0 : (!(decide (strLen s > 0))) = true
      · simp [h0, CheckOutcome.passes]
      · by_cases h1 : (!(jsSlice s 0 9 == "<![CDATA[")) = true
        · simp [h0, h1, CheckOutcome.passes]
        · simp [h0, h1, hmid, hidx, CheckOutcome.passes]
    · unfold checkCDATAString
      by_cases h0 : (!(decide (strLen s > 0))) = true
      · simp [h0, CheckOutcome.passes]
      · by_cases h1 : (!(jsSlice s 0 9 == "<![CDATA[")) = true
        · simp [h0, h1, CheckOutcome.passes]
        · simp [h0, h1, hmid, CheckOutcome.passes]
  · rfl

/-- A default string passes whenever the printable-shape conditions hold,
the length notwithstanding: the length assertion compares its boolean
against the (non-numeric) message string under loose equality. -/
theorem checkDefaultString_shape (s f : String)
    (h1 : strLeadingSpace s = false) (h2 : strTrailingSpace s = false)
    (h3 : 0 < strLen s)
    (h4 : jsToNumberOpt (f ++ " must not have more than 255 characters.") = none) :
    checkDefaultString (.str s) f = .ok := by
  unfold checkDefaultString
  simp [h1, h2, h3, jsLooseEqBoolStr, h4]

/-- Same shape-only behavior for the description checker. -/
theorem checkDescriptionString_shape (s f : String)
    (h1 : strLeadingSpace s = false) (h2 : strTrailingSpace s = false)
    (h3 : 0 < strLen s)
    (h4 : jsToNumberOpt (f ++ " must not have more than 255 characters.") = none) :
    checkDescriptionString (.str s) f = .ok := by
  unfold checkDescriptionString
  simp [h1, h2, h3, jsLooseEqBoolStr, h4]

/-- C3: the claim says strings longer than 255 (default) / 4000
(description) characters raise a violation when the other shape rules hold.
In the code both length assertions call `assert.notEqual(lengthBool, msg)`
with the message in the expected-value slot; a boolean is never loosely
equal to these non-numeric messages, so the assertion never throws and
overlong strings pass both checkers. -/
theorem c3_length_bounds_unenforced :
    strLen longTitle = 256
    ∧ checkDefaultString (JValue.str longTitle) "title" = CheckOutcome.ok
    ∧ strLen longDescription = 4001
    ∧ checkDescriptionString (JValue.str longDescription) "description"
        = CheckOutcome.ok := by
  have hl1 : strLen longTitle = 256 := List.length_replicate 256 'a'
  have hl2 : strLen longDescription = 4001 := List.length_replicate 4001 'a'
  have hg1 : strTrailingSpace longTitle = false := by
    unfold strTrailingSpace
    have hlast : longTitle.data.getLast? = some 'a' := by
      show (List.replicate 256 'a').getLast? = some 'a'
      rw [show (256 : Nat) = 255 + 1 from rfl, List.replicate_succ']
      exact List.getLast?_concat _
    rw [hlast]
    rfl
  have hg2 : strTrailingSpace longDescription = false := by
    unfold strTrailingSpace
    have hlast : longDescription.data.getLast? = some 'a' := by
      show (List.replicate 4001 'a').getLast? = some 'a'
      rw [show (4001 : Nat) = 4000 + 1 from rfl, List.replicate_succ']
      exact List.getLast?_concat _
    rw [hlast]
    rfl
  refine ⟨hl1, checkDefaultString_shape longTitle "title" rfl hg1 (by rw [hl1]; decide) rfl,
    hl2, checkDescriptionString_shape longDescription "description" rfl hg2
      (by rw [hl2]; decide) rfl⟩

/-- C4: a strict-only violation contributes to the exit signal exactly when
strict mode is on.  Replaying any list of strict-only violations with the
strict flag off leaves the exit code untouched; any always-fatal violation
forces exit code 1 under either flag; and the concrete feed whose only
finding is an unexpected item tag exits 0 without `--strict` and 1 with it. -/
theorem c4_strict_only_gating :
    (∀ (st : RunState) (evs : List (Msg × Bool)),
        (∀ e ∈ evs, e.2 = true) →
          (applyEvents false st evs).exitCode = st.exitCode)
    ∧ (∀ (b : Bool) (st : RunState) (evs : List (Msg × Bool)),
        (∃ e ∈ evs, e.2 = false) → (applyEvents b st evs).exitCode = 1)
    ∧ (checkEpisodesRun false imageChan).exitCode = 0
    ∧ (checkEpisodesRun true imageChan).exitCode = 1 := by
  refine ⟨?_, ?_, rfl, rfl⟩
  · intro st evs h
    induction evs generalizing st with
    | nil => rfl
    | cons e t ih =>
        rw [applyEvents_cons, ih _ (fun x hx => h x (List.mem_cons_of_mem e hx))]
        have he : e.2 = true := h e (List.mem_cons_self e t)
        unfold handleErrorSt
        rw [he]
        simp
  · intro b st evs h
    induction evs generalizing st with
    | nil =>
        rcases h with ⟨e, he, _⟩
        cases he
    | cons a t ih =>
        rcases h with ⟨e, he, hf⟩
        rw [applyEvents_cons]
        rcases List.mem_cons.mp he with rfl | ht
        · apply applyEvents_exitCode_one
          unfold handleErrorSt
          rw [hf]
          simp
        · exact ih _ ⟨e, ht, hf⟩

/-- C4 witness: a single strict-only violation leaves the exit code at 0
with strict mode off; a single always-fatal violation forces it to 1. -/
theorem c4_strict_only_gating_witness :
    (applyEvents false initState [(Msg.text "extra", true)]).exitCode
        = initState.exitCode
    ∧ (applyEvents false initState [(Msg.text "fatal", false)]).exitCode = 1 :=
  ⟨c4_strict_only_gating.1 initState _ (by intro e he; simp at he; rw [he]),
   c4_strict_only_gating.2.1 false initState _
     ⟨(Msg.text "fatal", false), by simp, rfl⟩⟩

/-- C5: in any item collection, the item at any position emits a
duplicate-guid violation — always-fatal, carrying the item's title and the
guid value — exactly when an earlier item already carried the same truthy
guid, and then exactly one such violation; likewise for duplicate
episode-index values.  The first conjunct locates the item's event batch
inside the whole loop's output. -/
theorem c5_duplicate_identity_flagging (serial : Bool) (pre post : List JValue)
    (it : JValue) :
    runItemsEvents serial [] [] (pre ++ it :: post)
        = runItemsEvents serial [] [] pre
          ++ itemAllEvents serial (guidsAfter [] pre) (epsAfter [] pre) it
            :: runItemsEvents serial (guidsAfter [] (pre ++ [it]))
                (epsAfter [] (pre ++ [it])) post
    ∧ dupGuidMsgs (itemAllEvents serial (guidsAfter [] pre) (epsAfter [] pre) it)
        = (if truthy (guidOf it)
              && pre.any (fun p => truthy (guidOf p) && sv (guidOf p) (guidOf it))
           then [(Msg.dupGuid (titleOf it) (guidOf it), false)] else [])
    ∧ dupEpisodeMsgs (itemAllEvents serial (guidsAfter [] pre) (epsAfter [] pre) it)
        = (if truthy (epOf it)
              && pre.any (fun p => truthy (epOf p) && sv (epOf p) (epOf it))
           then [(Msg.dupEpisode (titleOf it) (epOf it), false)] else []) := by
  refine ⟨?_, ?_, ?_⟩
  · rw [runItemsEvents_append, guidsAfter_snoc, epsAfter_snoc]
    rfl
  · rw [dupGuidMsgs_itemAllEvents, seenHas_guidsAfter]
    simp [seenHas]
  · rw [dupEpisodeMsgs_itemAllEvents, seenHas_epsAfter]
    simp [seenHas]

/-- C6 counterexample: an item whose children are exactly the required tags
plus `itunes:image` (listed in the optional table only as the dotted path
`itunes:image.@_href`) does produce a strict-only extra-tag violation,
contrary to the claim's top-level-segment reading. -/
theorem c6_counterexample_item_image_flagged :
    checkEpisodesEvents imageChan
      = [(Msg.extraTags (some (JValue.str "Ep1")) ["itunes:image"], true)] := rfl

/-- C6 (amended): a child tag is explained only by the structural list or by
an exact match with a rule-table field name.  Hence `itunes:image` on an
item is always reported (the item tables only know `itunes:image.@_href`),
while on the channel it is structural and a channel carrying it together
with top-level rule-table names reports nothing. -/
theorem c6_exact_field_name_matching :
    (∀ (serial : Bool) (item : JValue),
        "itunes:image" ∈ jsKeys item → "itunes:image" ∈ episodeExtraTags serial item)
    ∧ additionalChannelTags fullChan = []
    ∧ episodeExtraTags false imageItem = ["itunes:image"] := by
  refine ⟨?_, rfl, rfl⟩
  intro serial item h
  unfold episodeExtraTags jsWithout
  refine List.mem_filter.mpr ⟨h, ?_⟩
  cases serial <;> rfl

/-- C6 witness: the concrete item carrying `itunes:image` is reported. -/
theorem c6_exact_field_name_matching_witness :
    "itunes:image" ∈ episodeExtraTags false imageItem :=
  c6_exact_field_name_matching.1 false imageItem (by decide)

/-- C7 counterexample: in CI with `NODE_ENV=test`, the reachability check is
bypassed for a URL that is not prefixed by the configured public base, so
the bypass does not happen exactly on public-base-prefixed URLs. -/
theorem c7_counterexample_test_env_bypass :
    ciSkipsUrlCheck (some "true") (some "test") (some "https://pod.example/")
        "https://other.example/x" = true
    ∧ strStartsWith "https://other.example/x" "https://pod.example/" = false :=
  ⟨rfl, rfl⟩

/-- C7 (amended): in a CI context the reachability check is bypassed exactly
when `NODE_ENV` is `test` or the URL starts with the configured public base
(an unset base is coerced to the text "undefined" by `startsWith`). -/
theorem c7_ci_bypass_condition (ci nodeEnv base : Option String) (s : String)
    (h : envTruthy ci = true) :
    ciSkipsUrlCheck ci nodeEnv base s
      = (nodeEnv == some "test" || strStartsWith s (envStr base)) := by
  unfold ciSkipsUrlCheck
  rw [h]
  simp

/-- C7 witness: the bypass condition evaluated in a concrete CI run. -/
theorem c7_ci_bypass_condition_witness :
    envTruthy (some "true") = true
    ∧ ciSkipsUrlCheck (some "true") none (some "https://pod.example/")
          "https://pod.example/feed.xml"
        = ((none == some "test")
            || strStartsWith "https://pod.example/feed.xml"
                (envStr (some "https://pod.example/"))) :=
  ⟨rfl, c7_ci_bypass_condition _ _ _ _ rfl⟩

/-- C8 counterexample: `checkEmail` applied to a numeric value does not
raise its own email-shape violation — the library call inside it raises a
`TypeError`, an unrelated runtime error. -/
theorem c8_counterexample_email_typeerror :
    checkEmail (JValue.num 5) "itunes:owner.itunes:email"
      = CheckOutcome.crash "email.split is not a function" := rfl

/-- C8 (amended): every checker applied to the absent sentinel (null or the
empty string) raises its own descriptive violation, and every checker except
`checkEmail` does so on wrong-kind input as well; `checkEmail` on a
non-string truthy value raises a `TypeError`, which the invocation wrapper
still catches and records as an always-fatal violation, so no checker
failure escapes the section validator. -/
theorem c8_checkers_total_on_sentinels :
    ∀ f : String,
      checkDefaultString JValue.null f = .assertFail (f ++ " must be a string.")
      ∧ checkDefaultString (JValue.num 1) f = .assertFail (f ++ " must be a string.")
      ∧ checkDescriptionString JValue.null f = .assertFail (f ++ " must be a string.")
      ∧ checkNumberString JValue.null f = .assertFail (f ++ " must be a string.")
      ∧ checkCDATAString JValue.null f = .assertFail (f ++ " must be a string.")
      ∧ checkDate JValue.null f = .assertFail (f ++ " must be a string.")
      ∧ checkLanguage JValue.null f = .assertFail (f ++ " must be a string.")
      ∧ checkUrlFormat JValue.null f = .assertFail (f ++ " must be a string.")
      ∧ checkNatural JValue.null f = .assertFail (f ++ " must be a number.")
      ∧ checkNatural (JValue.str "3") f = .assertFail (f ++ " must be a number.")
      ∧ checkBool JValue.null f = .assertFail (f ++ " must be a boolean.")
      ∧ checkItunesCategory JValue.null JValue.null
          = .assertFail "Itunes category must be a string."
      ∧ checkItunesType JValue.null f
          = .assertFail (f ++ " must be \x27serial\x27 or \x27episodic\x27")
      ∧ checkEpisodeType JValue.null f
          = .assertFail (f ++ " must be \x27full\x27, \x27trailer\x27 or \x27bonus\x27.")
      ∧ checkAudioType JValue.null f = .assertFail (f ++ " valid audio type")
      ∧ checkEmail JValue.null f = .assertFail (f ++ " is not a valid email address.")
      ∧ checkEmail (JValue.str "") f
          = .assertFail (f ++ " is not a valid email address.")
      ∧ (∀ (b : Bool) (st : RunState),
          runCheck b st checkEmail (JValue.num 5) f
            = handleErrorSt b st (.text "email.split is not a function") false) :=
  fun _ => ⟨rfl, rfl, rfl, rfl, rfl, rfl, rfl, rfl, rfl, rfl, rfl, rfl, rfl, rfl,
    rfl, rfl, rfl, fun _ _ => rfl⟩

/-- C9: the number-string checker accepts a string exactly when its leading
characters parse as a nonnegative base-10 integer under `parseInt`
semantics; in particular "12abc" and "3.9" pass while "-1" and "abc" raise
violations. -/
theorem c9_number_string_parseint :
    (∀ (s f : String),
        checkNumberString (JValue.str s) f = CheckOutcome.ok
          ↔ ∃ n : Int, jsParseInt s = some n ∧ 0 ≤ n)
    ∧ checkNumberString (JValue.str "12abc") "enclosure.@_length" = CheckOutcome.ok
    ∧ checkNumberString (JValue.str "3.9") "enclosure.@_length" = CheckOutcome.ok
    ∧ checkNumberString (JValue.str "-1") "enclosure.@_length"
        = CheckOutcome.assertFail
            "enclosure.@_length must be a positive number or zero."
    ∧ checkNumberString (JValue.str "abc") "enclosure.@_length"
        = CheckOutcome.assertFail
            "enclosure.@_length is not a valid number string." := by
  refine ⟨?_, rfl, rfl, rfl, rfl⟩
  intro s f
  unfold checkNumberString
  cases h : jsParseInt s with
  | none => simp [h]
  | some n =>
      by_cases hn : n ≥ 0
      · simp [h, hn]
      · simp [h, hn]

/-- C9 witness: "12abc" parses to a nonnegative integer, by the accepting
direction of the equivalence at a concrete input. -/
theorem c9_number_string_parseint_witness :
    ∃ n : Int, jsParseInt "12abc" = some n ∧ 0 ≤ n :=
  (c9_number_string_parseint.1 "12abc" "enclosure.@_length").mp rfl

/-- C10: items with a falsy guid (absent yields the empty string) are
excluded from duplicate-guid detection entirely — they emit no
duplicate-guid violation and leave the identity set untouched — and
likewise for falsy episode-index values; a collection all of whose items
have falsy guids produces zero duplicate-guid violations. -/
theorem c10_falsy_identities_excluded :
    (∀ (serial : Bool) (guids eps : List JValue) (it : JValue),
        truthy (guidOf it) = false →
          dupGuidMsgs (itemAllEvents serial guids eps it) = []
          ∧ guidUpd guids it = guids)
    ∧ (∀ (serial : Bool) (guids eps : List JValue) (it : JValue),
        truthy (epOf it) = false →
          dupEpisodeMsgs (itemAllEvents serial guids eps it) = []
          ∧ epUpd eps it = eps)
    ∧ (∀ (serial : Bool) (items : List JValue),
        (∀ it ∈ items, truthy (guidOf it) = false) →
          dupGuidMsgs (runItemsEvents serial [] [] items).flatten = []) := by
  refine ⟨?_, ?_, ?_⟩
  · intro serial guids eps it h
    constructor
    · rw [dupGuidMsgs_itemAllEvents]
      simp [h]
    · unfold guidUpd
      simp [h]
  · intro serial guids eps it h
    constructor
    · rw [dupEpisodeMsgs_itemAllEvents]
      simp [h]
    · unfold epUpd
      simp [h]
  · intro serial items
    suffices H : ∀ (guids eps : List JValue),
        (∀ it ∈ items, truthy (guidOf it) = false) →
          dupGuidMsgs (runItemsEvents serial guids eps items).flatten = [] by
      exact H [] []
    induction items with
    | nil => intro g e _; rfl
    | cons it t ih =>
        intro g e h
        simp only [runItemsEvents, List.flatten_cons, dupGuidMsgs_append]
        rw [dupGuidMsgs_itemAllEvents,
          ih _ _ (fun x hx => h x (List.mem_cons_of_mem it hx))]
        simp [h it (List.mem_cons_self it t)]

/-- C10 witness: two items both lacking a guid child yield no duplicate-guid
violation, and processing such an item leaves the guid set unchanged. -/
theorem c10_falsy_identities_excluded_witness :
    dupGuidMsgs (runItemsEvents false [] [] [noGuidItem, noGuidItem]).flatten = []
    ∧ guidUpd [] noGuidItem = [] :=
  ⟨c10_falsy_identities_excluded.2.2 false [noGuidItem, noGuidItem]
      (by intro it hit; simp at hit; subst hit; rfl),
   (c10_falsy_identities_excluded.1 false [] [] noGuidItem rfl).2⟩
